import Mathlib

set_option maxRecDepth 10000

/-!
Verification of github-stars.py (Misc_Scripts repository).

This file shallowly embeds the fetch / normalize / export / aggregate / render
pipeline of src/github-star-repos/github-stars.py and proves or refutes the
frozen claims about it.  Raw API entries and all normalized field values are
modelled by a JSON value type; the normalizer (the loop body of
export_to_json, lines 56-83) is embedded as a fallible function returning
Except, because Python dictionary access and attribute access can raise.
-/

/-- JSON-like values: the data manipulated by the Python script
(dicts, lists, strings, numbers, booleans, None). -/
inductive Json where
  | null
  | bool (b : Bool)
  | num (n : Int)
  | str (s : String)
  | arr (elems : List Json)
  | obj (fields : List (String × Json))

mutual

/-- Structural equality of JSON values (Python == on these values). -/
def jsonBeq : Json → Json → Bool
  | Json.null, Json.null => true
  | Json.bool a, Json.bool b => a == b
  | Json.num a, Json.num b => a == b
  | Json.str a, Json.str b => a == b
  | Json.arr a, Json.arr b => jsonListBeq a b
  | Json.obj a, Json.obj b => jsonFieldsBeq a b
  | _, _ => false

/-- Elementwise equality of JSON lists. -/
def jsonListBeq : List Json → List Json → Bool
  | [], [] => true
  | x :: xs, y :: ys => jsonBeq x y && jsonListBeq xs ys
  | _, _ => false

/-- Elementwise equality of JSON object field lists. -/
def jsonFieldsBeq : List (String × Json) → List (String × Json) → Bool
  | [], [] => true
  | (k1, v1) :: xs, (k2, v2) :: ys => k1 == k2 && jsonBeq v1 v2 && jsonFieldsBeq xs ys
  | _, _ => false

end

instance : BEq Json := ⟨jsonBeq⟩

/-- Python dict lookup: the value stored under key k, if the key is present
(a present key may hold the value null). -/
def dictGet (fields : List (String × Json)) (k : String) : Option Json :=
  List.lookup k fields

/-- Python d.get(k, default): the stored value when the key is present
(even when that value is null), the default otherwise. -/
def pyGetD (fields : List (String × Json)) (k : String) (d : Json) : Json :=
  (dictGet fields k).getD d

/-- Python d.get(k): the stored value when the key is present, None otherwise. -/
def pyGet (fields : List (String × Json)) (k : String) : Json :=
  pyGetD fields k Json.null

/-- Python truthiness of a JSON value: None, False, 0, the empty string, the
empty list and the empty dict are falsy; everything else is truthy. -/
def truthy : Json → Bool
  | Json.null => false
  | Json.bool b => b
  | Json.num n => n != 0
  | Json.str s => !s.isEmpty
  | Json.arr xs => !xs.isEmpty
  | Json.obj fs => !fs.isEmpty
/-- Ranges of code points whose Unicode east-asian-width property is W or F,
as reported by the unicodedata module (Unicode 14.0) that github-stars.py line 102 queries. -/
def eastAsianWideRanges : List (Nat × Nat) := [
  (0x378, 0x379), (0x380, 0x383), (0x38B, 0x38B), (0x38D, 0x38D), (0x3A2, 0x3A2), (0x530, 0x530),
  (0x557, 0x558), (0x58B, 0x58C), (0x590, 0x590), (0x5C8, 0x5CF), (0x5EB, 0x5EE), (0x5F5, 0x5FF),
  (0x70E, 0x70E), (0x74B, 0x74C), (0x7B2, 0x7BF), (0x7FB, 0x7FC), (0x82E, 0x82F), (0x83F, 0x83F),
  (0x85C, 0x85D), (0x85F, 0x85F), (0x86B, 0x86F), (0x88F, 0x88F), (0x892, 0x897), (0x984, 0x984),
  (0x98D, 0x98E), (0x991, 0x992), (0x9A9, 0x9A9), (0x9B1, 0x9B1), (0x9B3, 0x9B5), (0x9BA, 0x9BB),
  (0x9C5, 0x9C6), (0x9C9, 0x9CA), (0x9CF, 0x9D6), (0x9D8, 0x9DB), (0x9DE, 0x9DE), (0x9E4, 0x9E5),
  (0x9FF, 0xA00), (0xA04, 0xA04), (0xA0B, 0xA0E), (0xA11, 0xA12), (0xA29, 0xA29), (0xA31, 0xA31),
  (0xA34, 0xA34), (0xA37, 0xA37), (0xA3A, 0xA3B), (0xA3D, 0xA3D), (0xA43, 0xA46), (0xA49, 0xA4A),
  (0xA4E, 0xA50), (0xA52, 0xA58), (0xA5D, 0xA5D), (0xA5F, 0xA65), (0xA77, 0xA80), (0xA84, 0xA84),
  (0xA8E, 0xA8E), (0xA92, 0xA92), (0xAA9, 0xAA9), (0xAB1, 0xAB1), (0xAB4, 0xAB4), (0xABA, 0xABB),
  (0xAC6, 0xAC6), (0xACA, 0xACA), (0xACE, 0xACF), (0xAD1, 0xADF), (0xAE4, 0xAE5), (0xAF2, 0xAF8),
  (0xB00, 0xB00), (0xB04, 0xB04), (0xB0D, 0xB0E), (0xB11, 0xB12), (0xB29, 0xB29), (0xB31, 0xB31),
  (0xB34, 0xB34), (0xB3A, 0xB3B), (0xB45, 0xB46), (0xB49, 0xB4A), (0xB4E, 0xB54), (0xB58, 0xB5B),
  (0xB5E, 0xB5E), (0xB64, 0xB65), (0xB78, 0xB81), (0xB84, 0xB84), (0xB8B, 0xB8D), (0xB91, 0xB91),
  (0xB96, 0xB98), (0xB9B, 0xB9B), (0xB9D, 0xB9D), (0xBA0, 0xBA2), (0xBA5, 0xBA7), (0xBAB, 0xBAD),
  (0xBBA, 0xBBD), (0xBC3, 0xBC5), (0xBC9, 0xBC9), (0xBCE, 0xBCF), (0xBD1, 0xBD6), (0xBD8, 0xBE5),
  (0xBFB, 0xBFF), (0xC0D, 0xC0D), (0xC11, 0xC11), (0xC29, 0xC29), (0xC3A, 0xC3B), (0xC45, 0xC45),
  (0xC49, 0xC49), (0xC4E, 0xC54), (0xC57, 0xC57), (0xC5B, 0xC5C), (0xC5E, 0xC5F), (0xC64, 0xC65),
  (0xC70, 0xC76), (0xC8D, 0xC8D), (0xC91, 0xC91), (0xCA9, 0xCA9), (0xCB4, 0xCB4), (0xCBA, 0xCBB),
  (0xCC5, 0xCC5), (0xCC9, 0xCC9), (0xCCE, 0xCD4), (0xCD7, 0xCDC), (0xCDF, 0xCDF), (0xCE4, 0xCE5),
  (0xCF0, 0xCF0), (0xCF3, 0xCFF), (0xD0D, 0xD0D), (0xD11, 0xD11), (0xD45, 0xD45), (0xD49, 0xD49),
  (0xD50, 0xD53), (0xD64, 0xD65), (0xD80, 0xD80), (0xD84, 0xD84), (0xD97, 0xD99), (0xDB2, 0xDB2),
  (0xDBC, 0xDBC), (0xDBE, 0xDBF), (0xDC7, 0xDC9), (0xDCB, 0xDCE), (0xDD5, 0xDD5), (0xDD7, 0xDD7),
  (0xDE0, 0xDE5), (0xDF0, 0xDF1), (0xDF5, 0xE00), (0xE3B, 0xE3E), (0xE5C, 0xE80), (0xE83, 0xE83),
  (0xE85, 0xE85), (0xE8B, 0xE8B), (0xEA4, 0xEA4), (0xEA6, 0xEA6), (0xEBE, 0xEBF), (0xEC5, 0xEC5),
  (0xEC7, 0xEC7), (0xECE, 0xECF), (0xEDA, 0xEDB), (0xEE0, 0xEFF), (0xF48, 0xF48), (0xF6D, 0xF70),
  (0xF98, 0xF98), (0xFBD, 0xFBD), (0xFCD, 0xFCD), (0xFDB, 0xFFF), (0x10C6, 0x10C6), (0x10C8, 0x10CC),
  (0x10CE, 0x10CF), (0x1100, 0x115F), (0x1249, 0x1249), (0x124E, 0x124F), (0x1257, 0x1257), (0x1259, 0x1259),
  (0x125E, 0x125F), (0x1289, 0x1289), (0x128E, 0x128F), (0x12B1, 0x12B1), (0x12B6, 0x12B7), (0x12BF, 0x12BF),
  (0x12C1, 0x12C1), (0x12C6, 0x12C7), (0x12D7, 0x12D7), (0x1311, 0x1311), (0x1316, 0x1317), (0x135B, 0x135C),
  (0x137D, 0x137F), (0x139A, 0x139F), (0x13F6, 0x13F7), (0x13FE, 0x13FF), (0x169D, 0x169F), (0x16F9, 0x16FF),
  (0x1716, 0x171E), (0x1737, 0x173F), (0x1754, 0x175F), (0x176D, 0x176D), (0x1771, 0x1771), (0x1774, 0x177F),
  (0x17DE, 0x17DF), (0x17EA, 0x17EF), (0x17FA, 0x17FF), (0x181A, 0x181F), (0x1879, 0x187F), (0x18AB, 0x18AF),
  (0x18F6, 0x18FF), (0x191F, 0x191F), (0x192C, 0x192F), (0x193C, 0x193F), (0x1941, 0x1943), (0x196E, 0x196F),
  (0x1975, 0x197F), (0x19AC, 0x19AF), (0x19CA, 0x19CF), (0x19DB, 0x19DD), (0x1A1C, 0x1A1D), (0x1A5F, 0x1A5F),
  (0x1A7D, 0x1A7E), (0x1A8A, 0x1A8F), (0x1A9A, 0x1A9F), (0x1AAE, 0x1AAF), (0x1ACF, 0x1AFF), (0x1B4D, 0x1B4F),
  (0x1B7F, 0x1B7F), (0x1BF4, 0x1BFB), (0x1C38, 0x1C3A), (0x1C4A, 0x1C4C), (0x1C89, 0x1C8F), (0x1CBB, 0x1CBC),
  (0x1CC8, 0x1CCF), (0x1CFB, 0x1CFF), (0x1F16, 0x1F17), (0x1F1E, 0x1F1F), (0x1F46, 0x1F47), (0x1F4E, 0x1F4F),
  (0x1F58, 0x1F58), (0x1F5A, 0x1F5A), (0x1F5C, 0x1F5C), (0x1F5E, 0x1F5E), (0x1F7E, 0x1F7F), (0x1FB5, 0x1FB5),
  (0x1FC5, 0x1FC5), (0x1FD4, 0x1FD5), (0x1FDC, 0x1FDC), (0x1FF0, 0x1FF1), (0x1FF5, 0x1FF5), (0x1FFF, 0x1FFF),
  (0x2065, 0x2065), (0x2072, 0x2073), (0x208F, 0x208F), (0x209D, 0x209F), (0x20C1, 0x20CF), (0x20F1, 0x20FF),
  (0x218C, 0x218F), (0x231A, 0x231B), (0x2329, 0x232A), (0x23E9, 0x23EC), (0x23F0, 0x23F0), (0x23F3, 0x23F3),
  (0x2427, 0x243F), (0x244B, 0x245F), (0x25FD, 0x25FE), (0x2614, 0x2615), (0x2648, 0x2653), (0x267F, 0x267F),
  (0x2693, 0x2693), (0x26A1, 0x26A1), (0x26AA, 0x26AB), (0x26BD, 0x26BE), (0x26C4, 0x26C5), (0x26CE, 0x26CE),
  (0x26D4, 0x26D4), (0x26EA, 0x26EA), (0x26F2, 0x26F3), (0x26F5, 0x26F5), (0x26FA, 0x26FA), (0x26FD, 0x26FD),
  (0x2705, 0x2705), (0x270A, 0x270B), (0x2728, 0x2728), (0x274C, 0x274C), (0x274E, 0x274E), (0x2753, 0x2755),
  (0x2757, 0x2757), (0x2795, 0x2797), (0x27B0, 0x27B0), (0x27BF, 0x27BF), (0x2B1B, 0x2B1C), (0x2B50, 0x2B50),
  (0x2B55, 0x2B55), (0x2B74, 0x2B75), (0x2B96, 0x2B96), (0x2CF4, 0x2CF8), (0x2D26, 0x2D26), (0x2D28, 0x2D2C),
  (0x2D2E, 0x2D2F), (0x2D68, 0x2D6E), (0x2D71, 0x2D7E), (0x2D97, 0x2D9F), (0x2DA7, 0x2DA7), (0x2DAF, 0x2DAF),
  (0x2DB7, 0x2DB7), (0x2DBF, 0x2DBF), (0x2DC7, 0x2DC7), (0x2DCF, 0x2DCF), (0x2DD7, 0x2DD7), (0x2DDF, 0x2DDF),
  (0x2E5E, 0x303E), (0x3040, 0x3247), (0x3250, 0x4DBF), (0x4E00, 0xA4CF), (0xA62C, 0xA63F), (0xA6F8, 0xA6FF),
  (0xA7CB, 0xA7CF), (0xA7D2, 0xA7D2), (0xA7D4, 0xA7D4), (0xA7DA, 0xA7F1), (0xA82D, 0xA82F), (0xA83A, 0xA83F),
  (0xA878, 0xA87F), (0xA8C6, 0xA8CD), (0xA8DA, 0xA8DF), (0xA954, 0xA95E), (0xA960, 0xA97F), (0xA9CE, 0xA9CE),
  (0xA9DA, 0xA9DD), (0xA9FF, 0xA9FF), (0xAA37, 0xAA3F), (0xAA4E, 0xAA4F), (0xAA5A, 0xAA5B), (0xAAC3, 0xAADA),
  (0xAAF7, 0xAB00), (0xAB07, 0xAB08), (0xAB0F, 0xAB10), (0xAB17, 0xAB1F), (0xAB27, 0xAB27), (0xAB2F, 0xAB2F),
  (0xAB6C, 0xAB6F), (0xABEE, 0xABEF), (0xABFA, 0xD7AF), (0xD7C7, 0xD7CA), (0xD7FC, 0xD7FF), (0xF900, 0xFAFF),
  (0xFB07, 0xFB12), (0xFB18, 0xFB1C), (0xFB37, 0xFB37), (0xFB3D, 0xFB3D), (0xFB3F, 0xFB3F), (0xFB42, 0xFB42),
  (0xFB45, 0xFB45), (0xFBC3, 0xFBD2), (0xFD90, 0xFD91), (0xFDC8, 0xFDCE), (0xFDD0, 0xFDEF), (0xFE10, 0xFE1F),
  (0xFE30, 0xFE6F), (0xFE75, 0xFE75), (0xFEFD, 0xFEFE), (0xFF00, 0xFF60), (0xFFBF, 0xFFC1), (0xFFC8, 0xFFC9),
  (0xFFD0, 0xFFD1), (0xFFD8, 0xFFD9), (0xFFDD, 0xFFE7), (0xFFEF, 0xFFF8), (0xFFFE, 0xFFFF), (0x1000C, 0x1000C),
  (0x10027, 0x10027), (0x1003B, 0x1003B), (0x1003E, 0x1003E), (0x1004E, 0x1004F), (0x1005E, 0x1007F), (0x100FB, 0x100FF),
  (0x10103, 0x10106), (0x10134, 0x10136), (0x1018F, 0x1018F), (0x1019D, 0x1019F), (0x101A1, 0x101CF), (0x101FE, 0x1027F),
  (0x1029D, 0x1029F), (0x102D1, 0x102DF), (0x102FC, 0x102FF), (0x10324, 0x1032C), (0x1034B, 0x1034F), (0x1037B, 0x1037F),
  (0x1039E, 0x1039E), (0x103C4, 0x103C7), (0x103D6, 0x103FF), (0x1049E, 0x1049F), (0x104AA, 0x104AF), (0x104D4, 0x104D7),
  (0x104FC, 0x104FF), (0x10528, 0x1052F), (0x10564, 0x1056E), (0x1057B, 0x1057B), (0x1058B, 0x1058B), (0x10593, 0x10593),
  (0x10596, 0x10596), (0x105A2, 0x105A2), (0x105B2, 0x105B2), (0x105BA, 0x105BA), (0x105BD, 0x105FF), (0x10737, 0x1073F),
  (0x10756, 0x1075F), (0x10768, 0x1077F), (0x10786, 0x10786), (0x107B1, 0x107B1), (0x107BB, 0x107FF), (0x10806, 0x10807),
  (0x10809, 0x10809), (0x10836, 0x10836), (0x10839, 0x1083B), (0x1083D, 0x1083E), (0x10856, 0x10856), (0x1089F, 0x108A6),
  (0x108B0, 0x108DF), (0x108F3, 0x108F3), (0x108F6, 0x108FA), (0x1091C, 0x1091E), (0x1093A, 0x1093E), (0x10940, 0x1097F),
  (0x109B8, 0x109BB), (0x109D0, 0x109D1), (0x10A04, 0x10A04), (0x10A07, 0x10A0B), (0x10A14, 0x10A14), (0x10A18, 0x10A18),
  (0x10A36, 0x10A37), (0x10A3B, 0x10A3E), (0x10A49, 0x10A4F), (0x10A59, 0x10A5F), (0x10AA0, 0x10ABF), (0x10AE7, 0x10AEA),
  (0x10AF7, 0x10AFF), (0x10B36, 0x10B38), (0x10B56, 0x10B57), (0x10B73, 0x10B77), (0x10B92, 0x10B98), (0x10B9D, 0x10BA8),
  (0x10BB0, 0x10BFF), (0x10C49, 0x10C7F), (0x10CB3, 0x10CBF), (0x10CF3, 0x10CF9), (0x10D28, 0x10D2F), (0x10D3A, 0x10E5F),
  (0x10E7F, 0x10E7F), (0x10EAA, 0x10EAA), (0x10EAE, 0x10EAF), (0x10EB2, 0x10EFF), (0x10F28, 0x10F2F), (0x10F5A, 0x10F6F),
  (0x10F8A, 0x10FAF), (0x10FCC, 0x10FDF), (0x10FF7, 0x10FFF), (0x1104E, 0x11051), (0x11076, 0x1107E), (0x110C3, 0x110CC),
  (0x110CE, 0x110CF), (0x110E9, 0x110EF), (0x110FA, 0x110FF), (0x11135, 0x11135), (0x11148, 0x1114F), (0x11177, 0x1117F),
  (0x111E0, 0x111E0), (0x111F5, 0x111FF), (0x11212, 0x11212), (0x1123F, 0x1127F), (0x11287, 0x11287), (0x11289, 0x11289),
  (0x1128E, 0x1128E), (0x1129E, 0x1129E), (0x112AA, 0x112AF), (0x112EB, 0x112EF), (0x112FA, 0x112FF), (0x11304, 0x11304),
  (0x1130D, 0x1130E), (0x11311, 0x11312), (0x11329, 0x11329), (0x11331, 0x11331), (0x11334, 0x11334), (0x1133A, 0x1133A),
  (0x11345, 0x11346), (0x11349, 0x1134A), (0x1134E, 0x1134F), (0x11351, 0x11356), (0x11358, 0x1135C), (0x11364, 0x11365),
  (0x1136D, 0x1136F), (0x11375, 0x113FF), (0x1145C, 0x1145C), (0x11462, 0x1147F), (0x114C8, 0x114CF), (0x114DA, 0x1157F),
  (0x115B6, 0x115B7), (0x115DE, 0x115FF), (0x11645, 0x1164F), (0x1165A, 0x1165F), (0x1166D, 0x1167F), (0x116BA, 0x116BF),
  (0x116CA, 0x116FF), (0x1171B, 0x1171C), (0x1172C, 0x1172F), (0x11747, 0x117FF), (0x1183C, 0x1189F), (0x118F3, 0x118FE),
  (0x11907, 0x11908), (0x1190A, 0x1190B), (0x11914, 0x11914), (0x11917, 0x11917), (0x11936, 0x11936), (0x11939, 0x1193A),
  (0x11947, 0x1194F), (0x1195A, 0x1199F), (0x119A8, 0x119A9), (0x119D8, 0x119D9), (0x119E5, 0x119FF), (0x11A48, 0x11A4F),
  (0x11AA3, 0x11AAF), (0x11AF9, 0x11BFF), (0x11C09, 0x11C09), (0x11C37, 0x11C37), (0x11C46, 0x11C4F), (0x11C6D, 0x11C6F),
  (0x11C90, 0x11C91), (0x11CA8, 0x11CA8), (0x11CB7, 0x11CFF), (0x11D07, 0x11D07), (0x11D0A, 0x11D0A), (0x11D37, 0x11D39),
  (0x11D3B, 0x11D3B), (0x11D3E, 0x11D3E), (0x11D48, 0x11D4F), (0x11D5A, 0x11D5F), (0x11D66, 0x11D66), (0x11D69, 0x11D69),
  (0x11D8F, 0x11D8F), (0x11D92, 0x11D92), (0x11D99, 0x11D9F), (0x11DAA, 0x11EDF), (0x11EF9, 0x11FAF), (0x11FB1, 0x11FBF),
  (0x11FF2, 0x11FFE), (0x1239A, 0x123FF), (0x1246F, 0x1246F), (0x12475, 0x1247F), (0x12544, 0x12F8F), (0x12FF3, 0x12FFF),
  (0x1342F, 0x1342F), (0x13439, 0x143FF), (0x14647, 0x167FF), (0x16A39, 0x16A3F), (0x16A5F, 0x16A5F), (0x16A6A, 0x16A6D),
  (0x16ABF, 0x16ABF), (0x16ACA, 0x16ACF), (0x16AEE, 0x16AEF), (0x16AF6, 0x16AFF), (0x16B46, 0x16B4F), (0x16B5A, 0x16B5A),
  (0x16B62, 0x16B62), (0x16B78, 0x16B7C), (0x16B90, 0x16E3F), (0x16E9B, 0x16EFF), (0x16F4B, 0x16F4E), (0x16F88, 0x16F8E),
  (0x16FA0, 0x1BBFF), (0x1BC6B, 0x1BC6F), (0x1BC7D, 0x1BC7F), (0x1BC89, 0x1BC8F), (0x1BC9A, 0x1BC9B), (0x1BCA4, 0x1CEFF),
  (0x1CF2E, 0x1CF2F), (0x1CF47, 0x1CF4F), (0x1CFC4, 0x1CFFF), (0x1D0F6, 0x1D0FF), (0x1D127, 0x1D128), (0x1D1EB, 0x1D1FF),
  (0x1D246, 0x1D2DF), (0x1D2F4, 0x1D2FF), (0x1D357, 0x1D35F), (0x1D379, 0x1D3FF), (0x1D455, 0x1D455), (0x1D49D, 0x1D49D),
  (0x1D4A0, 0x1D4A1), (0x1D4A3, 0x1D4A4), (0x1D4A7, 0x1D4A8), (0x1D4AD, 0x1D4AD), (0x1D4BA, 0x1D4BA), (0x1D4BC, 0x1D4BC),
  (0x1D4C4, 0x1D4C4), (0x1D506, 0x1D506), (0x1D50B, 0x1D50C), (0x1D515, 0x1D515), (0x1D51D, 0x1D51D), (0x1D53A, 0x1D53A),
  (0x1D53F, 0x1D53F), (0x1D545, 0x1D545), (0x1D547, 0x1D549), (0x1D551, 0x1D551), (0x1D6A6, 0x1D6A7), (0x1D7CC, 0x1D7CD),
  (0x1DA8C, 0x1DA9A), (0x1DAA0, 0x1DAA0), (0x1DAB0, 0x1DEFF), (0x1DF1F, 0x1DFFF), (0x1E007, 0x1E007), (0x1E019, 0x1E01A),
  (0x1E022, 0x1E022), (0x1E025, 0x1E025), (0x1E02B, 0x1E0FF), (0x1E12D, 0x1E12F), (0x1E13E, 0x1E13F), (0x1E14A, 0x1E14D),
  (0x1E150, 0x1E28F), (0x1E2AF, 0x1E2BF), (0x1E2FA, 0x1E2FE), (0x1E300, 0x1E7DF), (0x1E7E7, 0x1E7E7), (0x1E7EC, 0x1E7EC),
  (0x1E7EF, 0x1E7EF), (0x1E7FF, 0x1E7FF), (0x1E8C5, 0x1E8C6), (0x1E8D7, 0x1E8FF), (0x1E94C, 0x1E94F), (0x1E95A, 0x1E95D),
  (0x1E960, 0x1EC70), (0x1ECB5, 0x1ED00), (0x1ED3E, 0x1EDFF), (0x1EE04, 0x1EE04), (0x1EE20, 0x1EE20), (0x1EE23, 0x1EE23),
  (0x1EE25, 0x1EE26), (0x1EE28, 0x1EE28), (0x1EE33, 0x1EE33), (0x1EE38, 0x1EE38), (0x1EE3A, 0x1EE3A), (0x1EE3C, 0x1EE41),
  (0x1EE43, 0x1EE46), (0x1EE48, 0x1EE48), (0x1EE4A, 0x1EE4A), (0x1EE4C, 0x1EE4C), (0x1EE50, 0x1EE50), (0x1EE53, 0x1EE53),
  (0x1EE55, 0x1EE56), (0x1EE58, 0x1EE58), (0x1EE5A, 0x1EE5A), (0x1EE5C, 0x1EE5C), (0x1EE5E, 0x1EE5E), (0x1EE60, 0x1EE60),
  (0x1EE63, 0x1EE63), (0x1EE65, 0x1EE66), (0x1EE6B, 0x1EE6B), (0x1EE73, 0x1EE73), (0x1EE78, 0x1EE78), (0x1EE7D, 0x1EE7D),
  (0x1EE7F, 0x1EE7F), (0x1EE8A, 0x1EE8A), (0x1EE9C, 0x1EEA0), (0x1EEA4, 0x1EEA4), (0x1EEAA, 0x1EEAA), (0x1EEBC, 0x1EEEF),
  (0x1EEF2, 0x1EFFF), (0x1F004, 0x1F004), (0x1F02C, 0x1F02F), (0x1F094, 0x1F09F), (0x1F0AF, 0x1F0B0), (0x1F0C0, 0x1F0C0),
  (0x1F0CF, 0x1F0D0), (0x1F0F6, 0x1F0FF), (0x1F18E, 0x1F18E), (0x1F191, 0x1F19A), (0x1F1AE, 0x1F1E5), (0x1F200, 0x1F320),
  (0x1F32D, 0x1F335), (0x1F337, 0x1F37C), (0x1F37E, 0x1F393), (0x1F3A0, 0x1F3CA), (0x1F3CF, 0x1F3D3), (0x1F3E0, 0x1F3F0),
  (0x1F3F4, 0x1F3F4), (0x1F3F8, 0x1F43E), (0x1F440, 0x1F440), (0x1F442, 0x1F4FC), (0x1F4FF, 0x1F53D), (0x1F54B, 0x1F54E),
  (0x1F550, 0x1F567), (0x1F57A, 0x1F57A), (0x1F595, 0x1F596), (0x1F5A4, 0x1F5A4), (0x1F5FB, 0x1F64F), (0x1F680, 0x1F6C5),
  (0x1F6CC, 0x1F6CC), (0x1F6D0, 0x1F6D2), (0x1F6D5, 0x1F6DF), (0x1F6EB, 0x1F6EF), (0x1F6F4, 0x1F6FF), (0x1F774, 0x1F77F),
  (0x1F7D9, 0x1F7FF), (0x1F80C, 0x1F80F), (0x1F848, 0x1F84F), (0x1F85A, 0x1F85F), (0x1F888, 0x1F88F), (0x1F8AE, 0x1F8AF),
  (0x1F8B2, 0x1F8FF), (0x1F90C, 0x1F93A), (0x1F93C, 0x1F945), (0x1F947, 0x1F9FF), (0x1FA54, 0x1FA5F), (0x1FA6E, 0x1FAFF),
  (0x1FB93, 0x1FB93), (0x1FBCB, 0x1FBEF), (0x1FBFA, 0xE0000), (0xE0002, 0xE001F), (0xE0080, 0xE00FF), (0xE01F0, 0xEFFFF),
  (0xFFFFE, 0xFFFFF), (0x10FFFE, 0x10FFFF)]

/-- Test whether unicodedata.east_asian_width(c) is W or F, the condition on
line 102 of github-stars.py. -/
def eastAsianWide (c : Char) : Bool :=
  eastAsianWideRanges.any (fun p => p.1 ≤ c.toNat && c.toNat ≤ p.2)

/-- Loop body of display_width (github-stars.py lines 95-107): running width
updated by one character.  The Python continue statements leave the
accumulator unchanged. -/
def displayWidthStep (w : Nat) (c : Char) : Nat :=
  if 0xFE00 ≤ c.toNat ∧ c.toNat ≤ 0xFE0F then w
  else if c.toNat = 0x200D then w
  else if eastAsianWide c then w + 2
  else if 0x1F300 < c.toNat then w + 2
  else w + 1

/-- display_width (github-stars.py lines 92-108): iterate over the characters
of s accumulating the width. -/
def display_width (s : String) : Nat :=
  s.data.foldl displayWidthStep 0

/-- pad_line (github-stars.py lines 111-115).  The padding count is an integer
in Python; a nonpositive count makes the space-repetition empty, which
Int.toNat reproduces. -/
def pad_line (content : String) (total_width : Int) : String :=
  let padding_needed : Int := total_width - (display_width content : Int)
  content ++ String.mk (List.replicate padding_needed.toNat ' ')

/-- Per-character width contribution as the specification words it
(spec section 4.5, claim C3): this definition follows the spec text, to be
compared with the source-derived display_width. -/
def specCharWidth (c : Char) : Nat :=
  if 0xFE00 ≤ c.toNat ∧ c.toNat ≤ 0xFE0F then 0
  else if c.toNat = 0x200D then 0
  else if eastAsianWide c then 2
  else if 0x1F300 < c.toNat then 2
  else 1

/-- ASCII letter test, for the heuristic-stability part of claim C3. -/
def isAsciiLetter (c : Char) : Bool :=
  (65 ≤ c.toNat && c.toNat ≤ 90) || (97 ≤ c.toNat && c.toNat ≤ 122)

/-- Variation-selector test (U+FE00 through U+FE0F), for claim C3. -/
def isVariationSelector (c : Char) : Bool :=
  0xFE00 ≤ c.toNat && c.toNat ≤ 0xFE0F

/-- CanonicalRecord: the repo_data dictionary built on lines 65-82 of
github-stars.py.  Every field holds the JSON value the Python code stores,
so a null stored where the spec expects a number is representable. -/
structure CanonicalRecord where
  name : Json
  description : Json
  url : Json
  language : Json
  stars : Json
  forks : Json
  open_issues : Json
  topics : Json
  created_at : Json
  updated_at : Json
  starred_at : Json
  archived : Json
  owner : Json
  owner_type : Json
  license : Json
  homepage : Json

/-- Shape detection (github-stars.py lines 58-63): when the wrapper key
repo is present the nested object is the repository source and the sibling
starred_at value is kept; otherwise the whole entry is the source and
starred_at is null. -/
def rawShape (item : Json) : Json × Json :=
  match item with
  | Json.obj ifields =>
    if (dictGet ifields "repo").isSome then
      (pyGet ifields "repo", pyGet ifields "starred_at")
    else (item, Json.null)
  | _ => (item, Json.null)

/-- Normalization of one raw entry: the body of the for loop in
export_to_json (github-stars.py lines 56-82).  Errors model the Python
exceptions: KeyError on the two required subscripts, AttributeError when
.get is called on a non-dict (owner or license unwrapping), TypeError when
the repository source is not a dict. -/
def normalizeEntry (item : Json) : Except String CanonicalRecord :=
  let rs := rawShape item
  match rs.1 with
  | Json.obj r => do
    let name ← match dictGet r "full_name" with
      | some v => pure v
      | none => throw "KeyError: full_name"
    let url ← match dictGet r "html_url" with
      | some v => pure v
      | none => throw "KeyError: html_url"
    let ownerPair ← match pyGetD r "owner" (Json.obj []) with
      | Json.obj o => pure (pyGet o "login", pyGet o "type")
      | _ => throw "AttributeError: owner value has no attribute get"
    let license ←
      if truthy (pyGet r "license") then
        match pyGetD r "license" (Json.obj []) with
        | Json.obj l => pure (pyGet l "name")
        | _ => throw "AttributeError: license value has no attribute get"
      else pure Json.null
    pure {
      name := name
      description := pyGet r "description"
      url := url
      language := pyGet r "language"
      stars := pyGetD r "stargazers_count" (Json.num 0)
      forks := pyGetD r "forks_count" (Json.num 0)
      open_issues := pyGetD r "open_issues_count" (Json.num 0)
      topics := pyGetD r "topics" (Json.arr [])
      created_at := pyGet r "created_at"
      updated_at := pyGet r "updated_at"
      starred_at := rs.2
      archived := pyGetD r "archived" (Json.bool false)
      owner := ownerPair.1
      owner_type := ownerPair.2
      license := license
      homepage := pyGet r "homepage" }
  | _ => throw "TypeError: repository source is not subscriptable"

/-- Normalization of the whole raw list, as the loop of export_to_json
performs it before anything is written: the first exception aborts the
entire export. -/
def export_repositories (repos : List Json) : Except String (List CanonicalRecord) :=
  repos.mapM normalizeEntry

/-- Counter update for one observed key: increment the existing entry or
append a fresh one at the end, preserving first-seen insertion order, the
way collections.Counter fills its underlying dict. -/
def counterBump : List (Json × Nat) → Json → List (Json × Nat)
  | [], x => [(x, 1)]
  | (y, n) :: rest, x => if x == y then (y, n + 1) :: rest else (y, n) :: counterBump rest x

/-- Counter built from a list of observed keys, insertion-ordered. -/
def counterOf (xs : List Json) : List (Json × Nat) :=
  xs.foldl counterBump []

/-- Language histogram (github-stars.py line 132): Counter over the language
values of the records whose language is truthy. -/
def languages (repos : List CanonicalRecord) : List (Json × Nat) :=
  counterOf ((repos.filter (fun r => truthy r.language)).map (fun r => r.language))

/-- Total of a histogram: the sum of its counts. -/
def sumCounts (h : List (Json × Nat)) : Nat :=
  (h.map Prod.snd).sum

/-- Sort key of the recency ranking (github-stars.py line 155): the Python
expression is the updated_at value or the empty string; on the canonical
string-or-null updated_at values this is the stored string, empty for null. -/
def updatedKey (r : CanonicalRecord) : String :=
  match r.updated_at with
  | Json.str s => s
  | _ => ""

/-- Ordering used by the descending recency sort: a record precedes another
when its key is at least as large. -/
def updatedDesc (a b : CanonicalRecord) : Prop :=
  updatedKey b ≤ updatedKey a

instance : DecidableRel updatedDesc := fun a b =>
  inferInstanceAs (Decidable (updatedKey b ≤ updatedKey a))

instance : IsTotal CanonicalRecord updatedDesc :=
  ⟨fun a b => (le_total (updatedKey b) (updatedKey a)).imp id id⟩

instance : IsTrans CanonicalRecord updatedDesc :=
  ⟨fun _ _ _ h1 h2 => le_trans h2 h1⟩

/-- by_updated (github-stars.py line 155): stable descending sort by the
updated_at-or-empty key, then the first 10 records. -/
def by_updated (repos : List CanonicalRecord) : List CanonicalRecord :=
  (List.insertionSort updatedDesc repos).take 10

/-- String stored in a JSON value; the renderer applies string operations to
field values that are strings (the theorems about it carry that hypothesis). -/
def jsonStr : Json → String
  | Json.str s => s
  | _ => ""

/-- Python slice s[:n]: the first n characters. -/
def pySlice (s : String) (n : Nat) : String :=
  String.mk (s.data.take n)

/-- Name as rendered in the popularity panel (github-stars.py line 148). -/
def popularityName (r : CanonicalRecord) : String :=
  pySlice (jsonStr r.name) 45

/-- Name as rendered in the recency panel (github-stars.py line 161). -/
def recencyName (r : CanonicalRecord) : String :=
  pySlice (jsonStr r.name) 55

/-- Name line of the full listing (github-stars.py line 203): the name is
interpolated with no slicing. -/
def listingNameLine (r : CanonicalRecord) : String :=
  "  📁 " ++ jsonStr r.name

/-- Description line of the full listing (github-stars.py lines 204-206):
printed only for a truthy description, sliced to 74 characters, with an
ellipsis appended exactly when the raw character length exceeds 74. -/
def listingDescLine (r : CanonicalRecord) : Option String :=
  if truthy r.description then
    let d := jsonStr r.description
    some ("     " ++ pySlice d 74 ++ (if 74 < d.length then "..." else ""))
  else none

/-- Outcome of one page request in the fetch loop: a response body, or a
non-success HTTP status that raise_for_status turns into an exception. -/
inductive PageResult where
  | ok (body : List Json)
  | err (status : Nat)

/-- Fetch loop body (github-stars.py lines 29-42) over the remaining pages
the server would serve, accumulating fetched entries. -/
def fetchPages : List PageResult → List Json → Except Nat (List Json)
  | [], acc => Except.ok acc
  | PageResult.err s :: _, _ => Except.error s
  | PageResult.ok [] :: _, acc => Except.ok acc
  | PageResult.ok body :: rest, acc => fetchPages rest (acc ++ body)

/-- get_starred_repos (github-stars.py lines 20-44): pages are requested in
order until an empty body terminates the loop; a non-success status aborts
the whole fetch with an exception. -/
def get_starred_repos (pages : List PageResult) : Except Nat (List Json) :=
  fetchPages pages []

/-- Snapshot content written by export_to_json (the exported_at wall-clock
timestamp is outside the model). -/
structure SnapshotDoc where
  total_count : Nat
  repositories : List CanonicalRecord

/-- Snapshot files written by one run of main (github-stars.py lines
219-227): nothing is written when the fetch raises, and export_to_json
builds the whole document before opening the output file, so a
normalization error also writes nothing. -/
def mainWrites (pages : List PageResult) : List SnapshotDoc :=
  match get_starred_repos pages with
  | Except.error _ => []
  | Except.ok repos =>
    match export_repositories repos with
    | Except.error _ => []
    | Except.ok recs => [⟨repos.length, recs⟩]

theorem displayWidthStep_eq (w : Nat) (c : Char) :
    displayWidthStep w c = w + specCharWidth c := by
  unfold displayWidthStep specCharWidth
  split_ifs <;> omega

theorem foldl_displayWidthStep (l : List Char) (n : Nat) :
    l.foldl displayWidthStep n = n + (l.map specCharWidth).sum := by
  induction l generalizing n with
  | nil => simp
  | cons c cs ih => simp [displayWidthStep_eq, ih, Nat.add_assoc]

theorem eastAsianWide_eq_false (c : Char) (h : c.toNat < 888) :
    eastAsianWide c = false := by
  have hall : eastAsianWideRanges.all (fun q => decide (888 ≤ q.1)) = true := by decide
  unfold eastAsianWide
  rw [List.any_eq_false]
  intro q hq
  have h888 : 888 ≤ q.1 := of_decide_eq_true (List.all_eq_true.mp hall q hq)
  simp only [Bool.and_eq_true, decide_eq_true_eq, not_and]
  intro h1
  omega

theorem specCharWidth_space : specCharWidth ' ' = 1 := by
  have : (' ' : Char).toNat < 888 := by decide
  simp [specCharWidth, eastAsianWide_eq_false _ this]

theorem display_width_append (a b : String) :
    display_width (a ++ b) = display_width a + display_width b := by
  simp [display_width, foldl_displayWidthStep, String.data_append]

theorem display_width_spaces (n : Nat) :
    display_width (String.mk (List.replicate n ' ')) = n := by
  simp [display_width, foldl_displayWidthStep, List.map_replicate, specCharWidth_space]

/-- C3: display_width equals the per-character sum of the specified
contributions (0 for variation selectors and the zero-width joiner, 2 for
east-asian Wide/Fullwidth characters and for code points above 0x1F300,
1 otherwise); consequently an all-ASCII-letter string has width equal to its
character count and a string of variation selectors has width 0. -/
theorem display_width_spec :
    (∀ s : String, display_width s = (s.data.map specCharWidth).sum) ∧
    (∀ s : String, (∀ c ∈ s.data, isAsciiLetter c = true) → display_width s = s.length) ∧
    (∀ s : String, (∀ c ∈ s.data, isVariationSelector c = true) → display_width s = 0) := by
  refine ⟨fun s => by simp [display_width, foldl_displayWidthStep], ?_, ?_⟩
  · intro s hs
    have hone : ∀ c ∈ s.data, specCharWidth c = 1 := by
      intro c hc
      have h := hs c hc
      simp only [isAsciiLetter, Bool.or_eq_true, Bool.and_eq_true, decide_eq_true_eq] at h
      have hlt : c.toNat < 888 := by omega
      have hA : ¬(0xFE00 ≤ c.toNat ∧ c.toNat ≤ 0xFE0F) := by omega
      have hB : ¬(c.toNat = 0x200D) := by omega
      have hD : ¬(0x1F300 < c.toNat) := by omega
      simp [specCharWidth, hA, hB, hD, eastAsianWide_eq_false _ hlt]
    rw [show display_width s = (s.data.map specCharWidth).sum by
      simp [display_width, foldl_displayWidthStep]]
    rw [List.map_congr_left hone, List.map_const', List.sum_replicate, smul_eq_mul, mul_one]
    rfl
  · intro s hs
    have hzero : ∀ c ∈ s.data, specCharWidth c = 0 := by
      intro c hc
      have h := hs c hc
      simp only [isVariationSelector, Bool.and_eq_true, decide_eq_true_eq] at h
      simp [specCharWidth, h]
    rw [show display_width s = (s.data.map specCharWidth).sum by
      simp [display_width, foldl_displayWidthStep]]
    rw [List.map_congr_left hzero, List.map_const', List.sum_replicate, smul_zero]

theorem display_width_spec_witness :
    ("abc" : String).data.all isAsciiLetter = true ∧ display_width "abc" = 3 ∧
    ("︀️" : String).data.all isVariationSelector = true ∧
    display_width "︀️" = 0 :=
  ⟨by decide, display_width_spec.2.1 "abc" (by decide), by decide,
   display_width_spec.2.2 "︀️" (by decide)⟩

/-- C4: when the content's measured display width is at most the target
width, pad_line extends the content with spaces to measured display width
exactly the target; in particular pad_line of AB at width 5 appends three
spaces. -/
theorem pad_line_spec :
    (∀ (content : String) (w : Int), (display_width content : Int) ≤ w →
      (display_width (pad_line content w) : Int) = w) ∧
    pad_line "AB" 5 = "AB   " := by
  constructor
  · intro content w h
    simp only [pad_line]
    rw [display_width_append, display_width_spaces]
    push_cast
    rw [Int.toNat_of_nonneg (by omega)]
    omega
  · decide

theorem pad_line_spec_witness :
    (display_width "AB" : Int) ≤ 5 ∧ (display_width (pad_line "AB" 5) : Int) = 5 :=
  ⟨by decide, pad_line_spec.1 "AB" 5 (by decide)⟩

/-- C10: when the content's measured display width exceeds the target width,
pad_line returns the content unchanged, because the negative padding count
produces zero spaces. -/
theorem pad_line_overflow (content : String) (w : Int)
    (h : w < (display_width content : Int)) : pad_line content w = content := by
  have h0 : (w - (display_width content : Int)).toNat = 0 :=
    Int.toNat_of_nonpos (by omega)
  have hmk : String.mk ([] : List Char) = "" := rfl
  simp only [pad_line, h0, List.replicate, hmk, String.append_empty]

theorem pad_line_overflow_witness :
    (1 : Int) < (display_width "ab" : Int) ∧ pad_line "ab" 1 = "ab" :=
  ⟨by decide, pad_line_overflow "ab" 1 (by decide)⟩

/-- Raw bare-shaped entry whose stargazers_count key is present but null. -/
def rawStarsNull : Json :=
  Json.obj [("full_name", Json.str "a/b"), ("html_url", Json.str "https://x"),
            ("stargazers_count", Json.null)]

/-- C1 counterexample: a raw entry carrying stargazers_count = null
normalizes with stars = null, not the documented default 0, because dict.get
with a default only falls back when the key is absent. -/
theorem normalize_keeps_present_null :
    ∃ rec, normalizeEntry rawStarsNull = Except.ok rec ∧
      rec.stars = Json.null ∧ Json.null ≠ Json.num 0 := by
  refine ⟨_, rfl, rfl, ?_⟩
  intro h
  exact Json.noConfusion h

/-- C1 amended: for a bare-shaped raw entry, each defaulting field receives
the stored value whenever its key is present, even when that value is null,
and the documented default only when the key is absent; the nullable string
fields receive the stored value if present and null otherwise (so a present
null coincides with the default for them). -/
theorem normalizeEntry_defaults (r : List (String × Json)) (nm u : Json)
    (o : List (String × Json))
    (hrepo : dictGet r "repo" = none)
    (hname : dictGet r "full_name" = some nm)
    (hurl : dictGet r "html_url" = some u)
    (howner : pyGetD r "owner" (Json.obj []) = Json.obj o)
    (hlic : truthy (pyGet r "license") = false) :
    normalizeEntry (Json.obj r) = Except.ok
      { name := nm
        description := (dictGet r "description").getD Json.null
        url := u
        language := (dictGet r "language").getD Json.null
        stars := (dictGet r "stargazers_count").getD (Json.num 0)
        forks := (dictGet r "forks_count").getD (Json.num 0)
        open_issues := (dictGet r "open_issues_count").getD (Json.num 0)
        topics := (dictGet r "topics").getD (Json.arr [])
        created_at := (dictGet r "created_at").getD Json.null
        updated_at := (dictGet r "updated_at").getD Json.null
        starred_at := Json.null
        archived := (dictGet r "archived").getD (Json.bool false)
        owner := (dictGet o "login").getD Json.null
        owner_type := (dictGet o "type").getD Json.null
        license := Json.null
        homepage := (dictGet r "homepage").getD Json.null } := by
  have h1 : rawShape (Json.obj r) = (Json.obj r, Json.null) := by
    simp [rawShape, hrepo]
  have hlic2 : ¬(truthy (pyGet r "license") = true) := by simp [hlic]
  simp only [normalizeEntry, h1, hname, hurl, howner, if_neg hlic2]
  simp only [pyGet, pyGetD]
  rfl

theorem normalizeEntry_defaults_witness :
    normalizeEntry (Json.obj [("full_name", Json.str "a/b"),
        ("html_url", Json.str "https://x")]) = Except.ok
      { name := Json.str "a/b"
        description := Json.null
        url := Json.str "https://x"
        language := Json.null
        stars := Json.num 0
        forks := Json.num 0
        open_issues := Json.num 0
        topics := Json.arr []
        created_at := Json.null
        updated_at := Json.null
        starred_at := Json.null
        archived := Json.bool false
        owner := Json.null
        owner_type := Json.null
        license := Json.null
        homepage := Json.null } :=
  normalizeEntry_defaults [("full_name", Json.str "a/b"), ("html_url", Json.str "https://x")]
    (Json.str "a/b") (Json.str "https://x") [] rfl rfl rfl rfl rfl

/-- Raw bare-shaped entry whose owner key is present but null. -/
def rawOwnerNull : Json :=
  Json.obj [("full_name", Json.str "a/b"), ("html_url", Json.str "https://x"),
            ("owner", Json.null)]

/-- C2 counterexample: a raw entry with name and url present but owner = null
makes normalization raise (None.get in Python), so the normalizer is not
total over all combinations of present, absent and null optional fields. -/
theorem normalize_owner_null_raises :
    normalizeEntry rawOwnerNull =
      Except.error "AttributeError: owner value has no attribute get" := rfl

/-- C2 amended: normalization succeeds for every raw entry, of either shape,
whose repository source is a dict containing name and url, provided the
owner value (when present) is a dict and the license value (when present and
truthy) is a dict; an entry whose owner is present but null raises instead. -/
theorem normalizeEntry_total (item : Json) (r : List (String × Json))
    (hsrc : (rawShape item).1 = Json.obj r)
    (hname : (dictGet r "full_name").isSome = true)
    (hurl : (dictGet r "html_url").isSome = true)
    (howner : ∃ o, pyGetD r "owner" (Json.obj []) = Json.obj o)
    (hlic : truthy (pyGet r "license") = true →
      ∃ l, pyGetD r "license" (Json.obj []) = Json.obj l) :
    (normalizeEntry item).isOk = true := by
  obtain ⟨nm, hnm⟩ := Option.isSome_iff_exists.mp hname
  obtain ⟨u, hu⟩ := Option.isSome_iff_exists.mp hurl
  obtain ⟨o, ho⟩ := howner
  by_cases ht : truthy (pyGet r "license") = true
  · obtain ⟨l, hl⟩ := hlic ht
    simp only [normalizeEntry, hsrc, hnm, hu, ho, if_pos ht, hl]
    rfl
  · simp only [normalizeEntry, hsrc, hnm, hu, ho, if_neg ht]
    rfl

theorem normalizeEntry_total_witness :
    (normalizeEntry (Json.obj [("full_name", Json.str "c/d"),
      ("html_url", Json.str "https://y"), ("language", Json.null)])).isOk = true :=
  normalizeEntry_total
    (Json.obj [("full_name", Json.str "c/d"), ("html_url", Json.str "https://y"),
      ("language", Json.null)])
    [("full_name", Json.str "c/d"), ("html_url", Json.str "https://y"),
      ("language", Json.null)]
    rfl rfl rfl ⟨[], rfl⟩ (fun h => absurd h (by decide))

/-- Wrapper-shaped raw entry of the end-to-end example. -/
def rawWrapperExample : Json :=
  Json.obj [("repo", Json.obj [("full_name", Json.str "a/b"),
    ("html_url", Json.str "https://x"), ("stargazers_count", Json.num 5)]),
    ("starred_at", Json.str "2024-01-01T00:00:00Z")]

/-- Bare-shaped raw entry of the end-to-end example. -/
def rawBareExample : Json :=
  Json.obj [("full_name", Json.str "c/d"), ("html_url", Json.str "https://y")]

/-- C5: shape detection by the wrapper key: the wrapper-shaped and the
bare-shaped example entries normalize to exactly two records, the first
keeping the sibling starred_at and the nested stars, the second with
starred_at null and stars defaulted to 0. -/
theorem export_shape_detection :
    ∃ rec1 rec2, export_repositories [rawWrapperExample, rawBareExample] =
        Except.ok [rec1, rec2] ∧
      rec1.name = Json.str "a/b" ∧ rec1.starred_at = Json.str "2024-01-01T00:00:00Z" ∧
      rec1.stars = Json.num 5 ∧
      rec2.name = Json.str "c/d" ∧ rec2.starred_at = Json.null ∧
      rec2.stars = Json.num 0 :=
  ⟨_, _, rfl, rfl, rfl, rfl, rfl, rfl, rfl⟩

/-- Concrete canonical record with every field at its documented default,
varied below for counterexamples and witnesses. -/
def baseRec : CanonicalRecord where
  name := Json.str "n"
  description := Json.null
  url := Json.str "u"
  language := Json.null
  stars := Json.num 0
  forks := Json.num 0
  open_issues := Json.num 0
  topics := Json.arr []
  created_at := Json.null
  updated_at := Json.null
  starred_at := Json.null
  archived := Json.bool false
  owner := Json.null
  owner_type := Json.null
  license := Json.null
  homepage := Json.null

theorem counterBump_sum (acc : List (Json × Nat)) (x : Json) :
    sumCounts (counterBump acc x) = sumCounts acc + 1 := by
  induction acc with
  | nil => rfl
  | cons q rest ih =>
    obtain ⟨y, n⟩ := q
    by_cases h : (x == y) = true
    · simp [counterBump, h, sumCounts]
      omega
    · simp only [counterBump, h, Bool.false_eq_true, if_false, sumCounts,
        List.map_cons, List.sum_cons] at ih ⊢
      omega

theorem foldl_counterBump_sum (xs : List Json) (acc : List (Json × Nat)) :
    sumCounts (xs.foldl counterBump acc) = sumCounts acc + xs.length := by
  induction xs generalizing acc with
  | nil => simp
  | cons x xs ih =>
    rw [List.foldl_cons, ih, counterBump_sum]
    simp
    omega

theorem counterBump_fst_mem (acc : List (Json × Nat)) (x : Json) (q : Json)
    (h : q ∈ (counterBump acc x).map Prod.fst) :
    q = x ∨ q ∈ acc.map Prod.fst := by
  induction acc with
  | nil => simp [counterBump] at h; exact Or.inl h
  | cons p rest ih =>
    obtain ⟨y, n⟩ := p
    by_cases hxy : (x == y) = true
    · simp only [counterBump, hxy, if_true, List.map_cons, List.mem_cons] at h
      rcases h with h | h
      · exact Or.inr (by simp [h])
      · exact Or.inr (by simp [h])
    · simp only [counterBump, hxy, Bool.false_eq_true, if_false, List.map_cons,
        List.mem_cons] at h
      rcases h with h | h
      · exact Or.inr (by simp [h])
      · rcases ih h with h2 | h2
        · exact Or.inl h2
        · exact Or.inr (by simp [h2])

theorem foldl_counterBump_fst (xs : List Json) (acc : List (Json × Nat)) (q : Json)
    (h : q ∈ (xs.foldl counterBump acc).map Prod.fst) :
    q ∈ acc.map Prod.fst ∨ q ∈ xs := by
  induction xs generalizing acc with
  | nil => exact Or.inl h
  | cons x xs ih =>
    rcases ih (counterBump acc x) h with h2 | h2
    · rcases counterBump_fst_mem acc x q h2 with h3 | h3
      · exact Or.inr (by simp [h3])
      · exact Or.inl h3
    · exact Or.inr (List.mem_cons_of_mem x h2)

/-- C6 amended: the language histogram counts records per truthy language
value (excluding null and the empty string, both falsy in Python), its total
is the number of records with truthy language, and every histogram key is
the language of some record with truthy language. -/
theorem languages_total (repos : List CanonicalRecord) :
    sumCounts (languages repos) = (repos.filter (fun r => truthy r.language)).length ∧
    ∀ q ∈ (languages repos).map Prod.fst,
      ∃ r ∈ repos, truthy r.language = true ∧ q = r.language := by
  constructor
  · rw [languages, counterOf, foldl_counterBump_sum]
    simp [sumCounts]
  · intro q hq
    rcases foldl_counterBump_fst _ [] q hq with h | h
    · simp at h
    · obtain ⟨r, hr, hrq⟩ := List.mem_map.mp h
      have hf := List.mem_filter.mp hr
      exact ⟨r, hf.1, hf.2, hrq.symm⟩

/-- Record whose language is the empty string: non-null but falsy. -/
def emptyLangRec : CanonicalRecord := { baseRec with language := Json.str "" }

/-- C6 counterexample: a record with language equal to the empty string has
non-null language yet is excluded from the histogram, so the histogram total
is 0 while the count of records with non-null language is 1. -/
theorem languages_excludes_empty_string :
    languages [emptyLangRec] = [] ∧
    sumCounts (languages [emptyLangRec]) = 0 ∧
    emptyLangRec.language ≠ Json.null ∧
    List.countP (fun r => !(r.language == Json.null)) [emptyLangRec] = 1 := by
  refine ⟨rfl, rfl, ?_, rfl⟩
  intro h
  exact Json.noConfusion h

theorem empty_string_le (s : String) : "" ≤ s := by
  rw [String.le_iff_toList_le]
  exact List.nil_le

/-- C7: the recency ranking is a stable descending sort by the updated_at
key with null treated as the empty string: the sorted list is a permutation
of the input, sorted under the at-least-as-recent relation, every record
with null updated_at comes after every record whose updated_at is a
non-empty timestamp string, and by_updated takes its first 10 entries. -/
theorem by_updated_spec (repos : List CanonicalRecord)
    (_hwf : ∀ r ∈ repos, r.updated_at = Json.null ∨ ∃ s, r.updated_at = Json.str s) :
    List.Sorted updatedDesc (List.insertionSort updatedDesc repos) ∧
    List.Perm (List.insertionSort updatedDesc repos) repos ∧
    List.Pairwise (fun a b => a.updated_at = Json.null →
      ∀ s, b.updated_at = Json.str s → s = "")
      (List.insertionSort updatedDesc repos) ∧
    by_updated repos = (List.insertionSort updatedDesc repos).take 10 := by
  have hs := List.sorted_insertionSort updatedDesc repos
  refine ⟨hs, List.perm_insertionSort updatedDesc repos, ?_, rfl⟩
  refine hs.imp ?_
  intro a b hab ha s hbs
  have h3 : updatedKey b ≤ updatedKey a := hab
  rw [show updatedKey a = "" by simp [updatedKey, ha],
    show updatedKey b = s by simp [updatedKey, hbs]] at h3
  exact le_antisymm h3 (empty_string_le s)

/-- Record with a concrete updated_at timestamp. -/
def tsRec : CanonicalRecord :=
  { baseRec with updated_at := Json.str "2024-05-01T00:00:00Z" }

theorem by_updated_spec_witness :
    by_updated [baseRec, tsRec] =
      (List.insertionSort updatedDesc [baseRec, tsRec]).take 10 :=
  (by_updated_spec [baseRec, tsRec] (by
    intro r hr
    rcases List.mem_cons.mp hr with h | hr2
    · exact Or.inl (by subst h; rfl)
    · rcases List.mem_cons.mp hr2 with h | h
      · exact Or.inr ⟨"2024-05-01T00:00:00Z", by subst h; rfl⟩
      · exact absurd h (List.not_mem_nil r))).2.2.2

/-- Name of 56 characters, one more than the longer truncation limit. -/
def name56 : String := String.mk (List.replicate 56 'a')

/-- Record whose name is 56 characters long. -/
def rec56 : CanonicalRecord := { baseRec with name := Json.str name56 }

/-- C8 counterexample: the full-listing panel renders a 56-character name in
full; it is not truncated to 55 characters there. -/
theorem listing_name_not_truncated :
    listingNameLine rec56 = "  📁 " ++ name56 ∧
    name56.length = 56 ∧
    listingNameLine rec56 ≠ "  📁 " ++ pySlice name56 55 :=
  ⟨rfl, rfl, by decide⟩

theorem truthy_str_true (d : String) (h : d ≠ "") : truthy (Json.str d) = true := by
  simp only [truthy, Bool.not_eq_eq_eq_not, Bool.not_true]
  exact Bool.eq_false_iff.mpr (fun he => h ((String.isEmpty_iff d).mp he))

theorem pySlice_of_le (s : String) (n : Nat) (h : s.length ≤ n) : pySlice s n = s := by
  unfold pySlice
  rw [List.take_of_length_le (show s.data.length ≤ n from h)]

/-- C8 amended: names are truncated to 45 characters in the popularity panel
and to 55 in the recency panel, the full-listing name line renders the name
untruncated, and descriptions are printed (when truthy) truncated to 74
characters with an ellipsis appended exactly when the raw character length
exceeds 74. -/
theorem truncation_spec (r : CanonicalRecord) (s d : String)
    (hn : r.name = Json.str s) (hd : r.description = Json.str d) :
    popularityName r = pySlice s 45 ∧
    recencyName r = pySlice s 55 ∧
    listingNameLine r = "  📁 " ++ s ∧
    (d = "" → listingDescLine r = none) ∧
    (d ≠ "" → d.length ≤ 74 → listingDescLine r = some ("     " ++ d)) ∧
    (74 < d.length → listingDescLine r = some ("     " ++ pySlice d 74 ++ "...")) := by
  refine ⟨by simp [popularityName, jsonStr, hn], by simp [recencyName, jsonStr, hn],
    by simp [listingNameLine, jsonStr, hn], ?_, ?_, ?_⟩
  · intro h
    subst h
    rw [listingDescLine, hd, if_neg (by decide)]
  · intro h1 h2
    rw [listingDescLine, hd, if_pos (truthy_str_true d h1)]
    simp only [jsonStr]
    rw [pySlice_of_le d 74 h2, if_neg (by omega)]
    simp
  · intro h
    have h1 : d ≠ "" := by
      intro he
      rw [he] at h
      simp at h
    rw [listingDescLine, hd, if_pos (truthy_str_true d h1)]
    simp only [jsonStr]
    rw [if_pos h]

/-- Record with short concrete name and description. -/
def recNamed : CanonicalRecord :=
  { baseRec with name := Json.str "abc", description := Json.str "hi" }

theorem truncation_spec_witness :
    popularityName recNamed = pySlice "abc" 45 ∧
    listingNameLine recNamed = "  📁 " ++ "abc" :=
  ⟨(truncation_spec recNamed "abc" "hi" rfl rfl).1,
   (truncation_spec recNamed "abc" "hi" rfl rfl).2.2.1⟩

/-- C9: a non-success page status during the paginated fetch aborts the run
before the snapshot export: whenever get_starred_repos raises, the run
writes nothing, so no partial snapshot of already-fetched pages persists. -/
theorem no_partial_snapshot (pages : List PageResult) (s : Nat)
    (h : get_starred_repos pages = Except.error s) :
    mainWrites pages = [] := by
  simp [mainWrites, h]

theorem no_partial_snapshot_witness :
    get_starred_repos [PageResult.ok [Json.null], PageResult.err 500] =
      Except.error 500 ∧
    mainWrites [PageResult.ok [Json.null], PageResult.err 500] = [] :=
  ⟨rfl, no_partial_snapshot [PageResult.ok [Json.null], PageResult.err 500] 500 rfl⟩
